import Mathlib

/-!
Verification of the openclaw gateway's node event dispatcher
(`handleNodeEvent` in the gateway's server-node-events module) against its
natural-language specification.

The dispatcher is embedded shallowly:

* A `JsonValue` models the result of `JSON.parse` on an event's
  `payloadJSON`; `Option JsonValue` models the payload slot, with `none`
  standing for a payload that is absent, empty, or fails to parse (the
  source returns with no side effect in all three cases).  `JSON.parse`
  never produces non-finite numbers and the dispatcher only ever floors or
  prints them, so JSON numbers are modelled as `Int`.
* Side effects (registry merges, durable-store mirrors, system-event log
  records, liveness-refresh requests, executor invocations, chat-run
  registrations, subscriber changes) are collected in an `Effects` record;
  the session store is threaded explicitly.
* `Date.now()` and the two `randomUUID()` calls are inputs, fields of `Env`.
* The handler returns `Except String (SessionStore × Effects)`: `.error`
  models an uncaught JavaScript exception escaping `handleNodeEvent`
  (rejecting its promise), `.ok` a normal return.  Every other failure path
  in the source returns normally with no effect.
-/

/-- The result of `JSON.parse`: a JSON value.  Numbers are integers (see the
file comment). -/
inductive JsonValue where
  | null : JsonValue
  | bool : Bool → JsonValue
  | num : Int → JsonValue
  | str : String → JsonValue
  | arr : List JsonValue → JsonValue
  | obj : List (String × JsonValue) → JsonValue

/-- Property lookup on a parsed JSON value, as JavaScript sees it: only an
object has (string-keyed) own properties; property access on an array,
primitive or null yields undefined (here: an empty field list).  Mirrors
`typeof payload === "object" && payload !== null ? payload : {}` together
with optional chaining on the `agent.request` cast. -/
def toFields : JsonValue → List (String × JsonValue)
  | JsonValue.obj fields => fields
  | _ => []

/-- `obj.name`: the first binding of `name`, or undefined (`none`). -/
def getField : List (String × JsonValue) → String → Option JsonValue
  | [], _ => none
  | (k, v) :: rest, name => if k = name then some v else getField rest name

/-- `typeof obj.name === "string" ? obj.name : undefined`. -/
def getStr (fields : List (String × JsonValue)) (name : String) : Option String :=
  match getField fields name with
  | some (JsonValue.str s) => some s
  | _ => none

/-- `typeof obj.name === "number" ? obj.name : undefined`.  Values coming
from `JSON.parse` are always finite, so the source's `Number.isFinite`
guards are satisfied by every `some`. -/
def getNum (fields : List (String × JsonValue)) (name : String) : Option Int :=
  match getField fields name with
  | some (JsonValue.num n) => some n
  | _ => none

/-- JavaScript `String.prototype.trim` on the underlying character list. -/
def trimChars (cs : List Char) : List Char :=
  ((cs.dropWhile Char.isWhitespace).reverse.dropWhile Char.isWhitespace).reverse

/-- JavaScript `s.trim()`. -/
def jsTrim (s : String) : String :=
  String.mk (trimChars s.data)

/-- `typeof obj.name === "string" ? obj.name.trim() : ""` — the dispatcher's
recurring defensive string read. -/
def jsStrField (fields : List (String × JsonValue)) (name : String) : String :=
  match getStr fields name with
  | some s => jsTrim s
  | none => ""

/-- JavaScript `Boolean(x)` on a field read from a parsed payload
(`undefined` when absent). -/
def jsTruthy : Option JsonValue → Bool
  | none => false
  | some JsonValue.null => false
  | some (JsonValue.bool b) => b
  | some (JsonValue.num n) => !(n = 0)
  | some (JsonValue.str s) => !(s = "")
  | some (JsonValue.arr _) => true
  | some (JsonValue.obj _) => true

/-- JavaScript `x ?? undefined` on a field: collapses null to undefined,
keeps every other value. -/
def jsCoalesceUndef : Option JsonValue → Option JsonValue
  | none => none
  | some JsonValue.null => none
  | some v => some v

/-- JavaScript `(x ?? "").trim()` on a field, exactly as the `agent.request`
handler runs it on the unvalidated cast: absent or null coalesces to `""`,
a string is trimmed, and calling `.trim()` on any other value throws a
TypeError. -/
def coalesceTrim : Option JsonValue → Except String String
  | none => Except.ok ""
  | some JsonValue.null => Except.ok ""
  | some (JsonValue.str s) => Except.ok (jsTrim s)
  | some _ => Except.error "TypeError"

/-- A session-store entry.  `sessionId`, `updatedAt` and the seven fields
the dispatcher's upsert copies are taken from the upsert literal in the
source; `elevatedLevel` and the four queue fields appear in the repository's
directive tests; the four exec-default fields are the spec's "exec defaults"
directive settings (displayed as host/security/ask/node in the tests). -/
structure SessionEntry where
  sessionId : String
  updatedAt : Int
  thinkingLevel : Option String := none
  verboseLevel : Option String := none
  reasoningLevel : Option String := none
  elevatedLevel : Option String := none
  systemSent : Option Bool := none
  sendPolicy : Option String := none
  lastChannel : Option String := none
  lastTo : Option String := none
  queueMode : Option String := none
  queueDebounceMs : Option Int := none
  queueCap : Option Int := none
  queueDrop : Option String := none
  execHost : Option String := none
  execSecurity : Option String := none
  execAsk : Option String := none
  execNode : Option String := none
deriving DecidableEq

/-- The keyed session store; the most recent binding of a key is its value. -/
def SessionStore := List (String × SessionEntry)

/-- Read a key from the store. -/
def storeGet : SessionStore → String → Option SessionEntry
  | [], _ => none
  | (k, e) :: rest, key => if k = key then some e else storeGet rest key

/-- `store[canonicalKey] = entry` inside `updateSessionStore`: the new
binding shadows any older one. -/
def storeSet (store : SessionStore) (key : String) (e : SessionEntry) : SessionStore :=
  (key, e) :: store

/-- Modelled from the spec: `loadSessionEntry` (gateway session-utils, a
module of this repository that is not among the staged sources).  Per spec
4.3 the resolver trims/normalizes the key and "Loads existing entry by
canonical key"; the key reaching it has already been trimmed by the
dispatcher, so canonicalization is the identity, and the keyed store is
always available (`storePath` present).  Returns the loaded entry and the
canonical key, as the source destructures it. -/
def loadSessionEntry (store : SessionStore) (sessionKey : String) :
    Option SessionEntry × String :=
  (storeGet store sessionKey, sessionKey)

/-- Modelled from the spec: `normalizeMainKey` (routing/session-key, not
among the staged sources).  The resolver substitutes the "config default"
for empty input; the repository's tests show the default main session key is
`agent:main:main`. -/
def normalizeMainKey : Option String → String
  | some s => if jsTrim s = "" then "agent:main:main" else jsTrim s
  | none => "agent:main:main"

/-- The configured channel plugin ids a raw channel string may resolve to. -/
def knownChannelIds : List String :=
  ["telegram", "whatsapp", "signal", "discord", "slack", "imessage"]

/-- Case folding, written over the character list so that it evaluates. -/
def jsToLower (s : String) : String :=
  String.mk (s.data.map Char.toLower)

/-- Modelled from the spec: `normalizeChannelId` (channels/plugins, not
among the staged sources) maps a raw channel string to "a known channel id"
or undefined.  Modelled as case-insensitive membership in the configured
channel list; the empty string is never a known channel id. -/
def normalizeChannelId (raw : String) : Option String :=
  if knownChannelIds.contains (jsToLower raw) then some (jsToLower raw) else none

/-- A partial node-session record merged into the node registry (and
mirrored to the durable metadata store). -/
inductive RegistryPartial where
  | lifecycle (state : String) (reason : Option String) (updatedAtMs : Int)
  | lastLocation (lat lon : Int) (accuracyM altitudeM speedMps courseDeg : Option Int)
      (tsMs : Int) (source : Option String)
  | push (apns : String) (updatedAtMs : Int)
deriving DecidableEq

/-- One `enqueueSystemEvent(text, { sessionKey, contextKey })` call. -/
structure SysEvent where
  text : String
  sessionKey : String
  contextKey : String
deriving DecidableEq

/-- One `agentCommand({...})` invocation (the external executor).  The
`thinking` slot carries the raw JSON value the source forwards
(`link?.thinking ?? undefined`); the voice path passes the literal "low". -/
structure AgentCall where
  message : String
  sessionId : String
  sessionKey : String
  thinking : Option JsonValue
  deliver : Bool
  toRecipient : Option String
  channel : Option String
  timeout : Option String
  messageChannel : String

/-- One `ctx.addChatRun(sessionId, { sessionKey, clientRunId })` call. -/
structure ChatRun where
  sessionId : String
  sessionKey : String
  clientRunId : String
deriving DecidableEq

/-- The side effects one `handleNodeEvent` call issues, in program order
within each list. -/
structure Effects where
  registryUpdates : List (String × RegistryPartial) := []
  metadataMirrors : List (String × RegistryPartial) := []
  systemEvents : List SysEvent := []
  heartbeatRequests : List String := []
  executorCalls : List AgentCall := []
  chatRuns : List ChatRun := []
  subscribes : List (String × String) := []
  unsubscribes : List (String × String) := []

def noEffects : Effects := {}

/-- The dispatcher's ambient inputs: the loaded config's main session key,
`Date.now()`, and the values the two `randomUUID()` call sites would
return. -/
structure Env where
  cfgMainKey : Option String
  now : Int
  freshSessionId : String
  freshRunId : String

/-- An inbound event envelope; `payloadJSON` is the parse result, `none`
when the payload is absent, empty or unparseable (see the file comment). -/
structure NodeEvent where
  event : String
  payloadJSON : Option JsonValue

/-- `entry?.sessionId ?? randomUUID()`. -/
def sessionIdFor (entry : Option SessionEntry) (fresh : String) : String :=
  match entry with
  | some e => e.sessionId
  | none => fresh

/-- The record literal both message handlers write back:
`store[canonicalKey] = { sessionId, updatedAt: now, thinkingLevel: entry?.thinkingLevel,
verboseLevel, reasoningLevel, systemSent, sendPolicy, lastChannel, lastTo }`.
Fields absent from the literal are absent from the stored object. -/
def sessionUpsertEntry (entry : Option SessionEntry) (sessionId : String) (now : Int) :
    SessionEntry :=
  { sessionId := sessionId
    updatedAt := now
    thinkingLevel := entry.bind SessionEntry.thinkingLevel
    verboseLevel := entry.bind SessionEntry.verboseLevel
    reasoningLevel := entry.bind SessionEntry.reasoningLevel
    systemSent := entry.bind SessionEntry.systemSent
    sendPolicy := entry.bind SessionEntry.sendPolicy
    lastChannel := entry.bind SessionEntry.lastChannel
    lastTo := entry.bind SessionEntry.lastTo }

/-- The `node.lifecycle` case: requires a non-empty trimmed `state`, merges
a lifecycle partial into the registry and mirrors it. -/
def handleNodeLifecycle (env : Env) (store : SessionStore) (nodeId : String)
    (payload : Option JsonValue) : SessionStore × Effects :=
  match payload with
  | none => (store, noEffects)
  | some p =>
    let fields := toFields p
    let state := jsStrField fields "state"
    if state = "" then (store, noEffects)
    else
      let reason := (getStr fields "reason").map jsTrim
      let updatedAtMs := (getNum fields "tsMs").getD env.now
      let part := RegistryPartial.lifecycle state reason updatedAtMs
      (store, { registryUpdates := [(nodeId, part)], metadataMirrors := [(nodeId, part)] })

/-- The `node.location` case: requires numeric `lat` and `lon` (finite by
construction here), merges a location partial and mirrors it. -/
def handleNodeLocation (env : Env) (store : SessionStore) (nodeId : String)
    (payload : Option JsonValue) : SessionStore × Effects :=
  match payload with
  | none => (store, noEffects)
  | some p =>
    let fields := toFields p
    match getNum fields "lat", getNum fields "lon" with
    | some lat, some lon =>
      let loc := RegistryPartial.lastLocation lat lon
        (getNum fields "accuracyM") (getNum fields "altitudeM")
        (getNum fields "speedMps") (getNum fields "courseDeg")
        ((getNum fields "tsMs").getD env.now)
        ((getStr fields "source").map jsTrim)
      (store, { registryUpdates := [(nodeId, loc)], metadataMirrors := [(nodeId, loc)] })
    | _, _ => (store, noEffects)

/-- The `push.apnsToken` case: requires a non-empty trimmed `token`. -/
def handlePushApnsToken (env : Env) (store : SessionStore) (nodeId : String)
    (payload : Option JsonValue) : SessionStore × Effects :=
  match payload with
  | none => (store, noEffects)
  | some p =>
    let fields := toFields p
    let token := jsStrField fields "token"
    if token = "" then (store, noEffects)
    else
      let updatedAtMs := (getNum fields "updatedAtMs").getD env.now
      let part := RegistryPartial.push token updatedAtMs
      (store, { registryUpdates := [(nodeId, part)], metadataMirrors := [(nodeId, part)] })

/-- The `voice.transcript` case: validates the trimmed text (non-empty, at
most 20000 units), resolves the session under the raw key or the config
main key, upserts the entry, registers a chat-run mapping and invokes the
executor. -/
def handleVoiceTranscript (env : Env) (store : SessionStore) (nodeId : String)
    (payload : Option JsonValue) : SessionStore × Effects :=
  match payload with
  | none => (store, noEffects)
  | some p =>
    let fields := toFields p
    let text := jsStrField fields "text"
    if text = "" then (store, noEffects)
    else if text.length > 20000 then (store, noEffects)
    else
      let sessionKeyRaw := jsStrField fields "sessionKey"
      let rawMainKey := normalizeMainKey env.cfgMainKey
      let sessionKey := if sessionKeyRaw.length > 0 then sessionKeyRaw else rawMainKey
      let loaded := loadSessionEntry store sessionKey
      let entry := loaded.1
      let canonicalKey := loaded.2
      let sessionId := sessionIdFor entry env.freshSessionId
      let newStore := storeSet store canonicalKey (sessionUpsertEntry entry sessionId env.now)
      let call : AgentCall :=
        { message := text
          sessionId := sessionId
          sessionKey := sessionKey
          thinking := some (JsonValue.str "low")
          deliver := false
          toRecipient := none
          channel := none
          timeout := none
          messageChannel := "node" }
      (newStore,
        { chatRuns := [⟨sessionId, sessionKey, "voice-" ++ env.freshRunId⟩]
          executorCalls := [call] })

/-- The `agent.request` case.  The payload is cast without validation, so
reading `message` or `sessionKey` can throw a TypeError (a non-string,
non-null value); `channel`, `to` and `timeoutSeconds` are typeof-guarded.
`deliver` is the requested flag AND a resolved channel. -/
def handleAgentRequest (env : Env) (store : SessionStore) (nodeId : String)
    (payload : Option JsonValue) : Except String (SessionStore × Effects) :=
  match payload with
  | none => Except.ok (store, noEffects)
  | some link =>
    let fields := toFields link
    match coalesceTrim (getField fields "message") with
    | Except.error e => Except.error e
    | Except.ok message =>
      if message = "" then Except.ok (store, noEffects)
      else if message.length > 20000 then Except.ok (store, noEffects)
      else
        let channelRaw := jsStrField fields "channel"
        let channel := normalizeChannelId channelRaw
        let toField :=
          match getStr fields "to" with
          | some s => if jsTrim s = "" then none else some (jsTrim s)
          | none => none
        let deliver := jsTruthy (getField fields "deliver") && channel.isSome
        match coalesceTrim (getField fields "sessionKey") with
        | Except.error e => Except.error e
        | Except.ok sessionKeyRaw =>
          let sessionKey := if sessionKeyRaw.length > 0 then sessionKeyRaw
            else "node-" ++ nodeId
          let loaded := loadSessionEntry store sessionKey
          let entry := loaded.1
          let canonicalKey := loaded.2
          let sessionId := sessionIdFor entry env.freshSessionId
          let newStore := storeSet store canonicalKey (sessionUpsertEntry entry sessionId env.now)
          let call : AgentCall :=
            { message := message
              sessionId := sessionId
              sessionKey := sessionKey
              thinking := jsCoalesceUndef (getField fields "thinking")
              deliver := deliver
              toRecipient := toField
              channel := channel
              timeout := (getNum fields "timeoutSeconds").map (fun n => toString n)
              messageChannel := "node" }
          Except.ok (newStore, { executorCalls := [call] })

/-- The `chat.subscribe` case: requires a non-empty trimmed `sessionKey`. -/
def handleChatSubscribe (store : SessionStore) (nodeId : String)
    (payload : Option JsonValue) : SessionStore × Effects :=
  match payload with
  | none => (store, noEffects)
  | some p =>
    let sessionKey := jsStrField (toFields p) "sessionKey"
    if sessionKey = "" then (store, noEffects)
    else (store, { subscribes := [(nodeId, sessionKey)] })

/-- The `chat.unsubscribe` case. -/
def handleChatUnsubscribe (store : SessionStore) (nodeId : String)
    (payload : Option JsonValue) : SessionStore × Effects :=
  match payload with
  | none => (store, noEffects)
  | some p =>
    let sessionKey := jsStrField (toFields p) "sessionKey"
    if sessionKey = "" then (store, noEffects)
    else (store, { unsubscribes := [(nodeId, sessionKey)] })

/-- The shared `exec.started` / `exec.finished` / `exec.denied` case:
defaults the session key to `node-<nodeId>`, drops a key trimming to empty,
formats the one-line status text, enqueues it as a system event tagged
`exec:<runId>` (plain `exec` when `runId` is missing), and requests a
liveness refresh. -/
def handleExecEvent (store : SessionStore) (nodeId : String) (kind : String)
    (payload : Option JsonValue) : SessionStore × Effects :=
  match payload with
  | none => (store, noEffects)
  | some p =>
    let fields := toFields p
    let sessionKey :=
      match getStr fields "sessionKey" with
      | some s => jsTrim s
      | none => "node-" ++ nodeId
    if sessionKey = "" then (store, noEffects)
    else
      let runId := jsStrField fields "runId"
      let command := jsStrField fields "command"
      let exitCode := getNum fields "exitCode"
      let timedOut :=
        match getField fields "timedOut" with
        | some (JsonValue.bool b) => b
        | _ => false
      let output := jsStrField fields "output"
      let reason := jsStrField fields "reason"
      let idPart := if !(runId = "") then " id=" ++ runId else ""
      let text :=
        if kind = "exec.started" then
          let base := "Exec started (node=" ++ nodeId ++ idPart ++ ")"
          if !(command = "") then base ++ ": " ++ command else base
        else if kind = "exec.finished" then
          let exitLabel :=
            if timedOut then "timeout"
            else "code " ++ (match exitCode with | some n => toString n | none => "?")
          let base := "Exec finished (node=" ++ nodeId ++ idPart ++ ", " ++ exitLabel ++ ")"
          if !(output = "") then base ++ "\n" ++ output else base
        else
          let reasonPart := if !(reason = "") then ", " ++ reason else ""
          let base := "Exec denied (node=" ++ nodeId ++ idPart ++ reasonPart ++ ")"
          if !(command = "") then base ++ ": " ++ command else base
      (store,
        { systemEvents :=
            [⟨text, sessionKey, if !(runId = "") then "exec:" ++ runId else "exec"⟩],
          heartbeatRequests := ["exec-event"] })

/-- The dispatcher: `handleNodeEvent(ctx, nodeId, evt)`.  Unknown event
kinds are a no-op.  `.error` models an exception escaping the handler. -/
def handleNodeEvent (env : Env) (store : SessionStore) (nodeId : String) (evt : NodeEvent) :
    Except String (SessionStore × Effects) :=
  match evt.event with
  | "node.lifecycle" => Except.ok (handleNodeLifecycle env store nodeId evt.payloadJSON)
  | "node.location" => Except.ok (handleNodeLocation env store nodeId evt.payloadJSON)
  | "push.apnsToken" => Except.ok (handlePushApnsToken env store nodeId evt.payloadJSON)
  | "voice.transcript" => Except.ok (handleVoiceTranscript env store nodeId evt.payloadJSON)
  | "agent.request" => handleAgentRequest env store nodeId evt.payloadJSON
  | "chat.subscribe" => Except.ok (handleChatSubscribe store nodeId evt.payloadJSON)
  | "chat.unsubscribe" => Except.ok (handleChatUnsubscribe store nodeId evt.payloadJSON)
  | "exec.started" => Except.ok (handleExecEvent store nodeId evt.event evt.payloadJSON)
  | "exec.finished" => Except.ok (handleExecEvent store nodeId evt.event evt.payloadJSON)
  | "exec.denied" => Except.ok (handleExecEvent store nodeId evt.event evt.payloadJSON)
  | _ => Except.ok (store, noEffects)

/-- The state and effects a call settles on; an escaped exception leaves the
store as it was and no effect observable through the hub. -/
def handleResult (env : Env) (store : SessionStore) (nodeId : String) (evt : NodeEvent) :
    SessionStore × Effects :=
  match handleNodeEvent env store nodeId evt with
  | Except.ok r => r
  | Except.error _ => (store, noEffects)

def storeAfter (env : Env) (store : SessionStore) (nodeId : String) (evt : NodeEvent) :
    SessionStore :=
  (handleResult env store nodeId evt).1

def effectsOf (env : Env) (store : SessionStore) (nodeId : String) (evt : NodeEvent) :
    Effects :=
  (handleResult env store nodeId evt).2

def callsOf (env : Env) (store : SessionStore) (nodeId : String) (evt : NodeEvent) :
    List AgentCall :=
  (effectsOf env store nodeId evt).executorCalls

def sysEventsOf (env : Env) (store : SessionStore) (nodeId : String) (evt : NodeEvent) :
    List SysEvent :=
  (effectsOf env store nodeId evt).systemEvents

def heartbeatsOf (env : Env) (store : SessionStore) (nodeId : String) (evt : NodeEvent) :
    List String :=
  (effectsOf env store nodeId evt).heartbeatRequests

/-- A message event (voice transcript or agent deep link) with an explicit
text and session key, as the theorems below quantify over them. -/
def msgEvent (kind text key : String) : NodeEvent :=
  { event := kind,
    payloadJSON := some (JsonValue.obj
      [(if kind = "voice.transcript" then "text" else "message", JsonValue.str text),
       ("sessionKey", JsonValue.str key)]) }

/-- A concrete environment for closed statements. -/
def env0 : Env :=
  { cfgMainKey := none, now := 1000, freshSessionId := "uuid-a", freshRunId := "run-uuid-a" }

/-- A second concrete environment with different fresh identifiers. -/
def env0b : Env :=
  { cfgMainKey := none, now := 2000, freshSessionId := "uuid-b", freshRunId := "run-uuid-b" }

/-- A concrete stored entry carrying every directive field, used by the
closed statements below. -/
def entry0 : SessionEntry :=
  { sessionId := "sid-0"
    updatedAt := 5
    thinkingLevel := some "high"
    verboseLevel := some "on"
    reasoningLevel := some "stream"
    elevatedLevel := some "off"
    systemSent := some true
    sendPolicy := some "allow"
    lastChannel := some "whatsapp"
    lastTo := some "+1222"
    queueMode := some "interrupt"
    queueDebounceMs := some 2000
    queueCap := some 5
    queueDrop := some "old"
    execHost := some "gateway"
    execSecurity := some "allowlist"
    execAsk := some "always"
    execNode := some "mac-1" }

def store0 : SessionStore := [("k", entry0)]

theorem storeGet_storeSet_self (store : SessionStore) (k : String) (e : SessionEntry) :
    storeGet (storeSet store k e) k = some e := by
  simp [storeGet, storeSet]

/-- C3: the end-to-end exec.finished example.  `JSON.parse` of
`{"runId":"run-2","exitCode":0,"timedOut":false,"output":"done"}` yields
exactly the object embedded here; for any environment and store the
dispatcher enqueues the one system event
`"Exec finished (node=node-2 id=run-2, code 0)\ndone"` tagged with session
key `node-node-2` and context key `exec:run-2`, requests one liveness
refresh, and does nothing else (store unchanged, no other effect). -/
theorem exec_finished_end_to_end (env : Env) (store : SessionStore) :
    handleNodeEvent env store "node-2"
      { event := "exec.finished",
        payloadJSON := some (JsonValue.obj
          [("runId", JsonValue.str "run-2"), ("exitCode", JsonValue.num 0),
           ("timedOut", JsonValue.bool false), ("output", JsonValue.str "done")]) }
      = Except.ok (store,
          { systemEvents := [⟨"Exec finished (node=node-2 id=run-2, code 0)\ndone",
              "node-node-2", "exec:run-2"⟩]
            heartbeatRequests := ["exec-event"] }) := rfl

/-- C8: the dispatcher is not exception-free on invalid payloads.  The
`agent.request` handler casts the parsed payload without validating field
types, so a payload whose `message` is present but not a string — here
`{"message":5}`, which lacks a valid required message — makes
`(link?.message ?? "").trim()` throw a TypeError instead of dropping the
event silently. -/
theorem agent_request_non_string_message_throws :
    handleNodeEvent env0 [] "n"
      { event := "agent.request", payloadJSON := some (JsonValue.obj [("message", JsonValue.num 5)]) }
      = Except.error "TypeError" := rfl

/-- C5 counterexample: an exec.finished payload with no `runId` at all —
`{"exitCode":0}` from node `n` — is NOT dropped silently: the dispatcher
still enqueues a system event (tagged with the plain context key `exec`)
and still requests a liveness refresh. -/
theorem exec_missing_run_id_counterexample :
    handleNodeEvent env0 [] "n"
      { event := "exec.finished", payloadJSON := some (JsonValue.obj [("exitCode", JsonValue.num 0)]) }
      = Except.ok ([],
          { systemEvents := [⟨"Exec finished (node=n, code 0)", "node-n", "exec"⟩]
            heartbeatRequests := ["exec-event"] }) := rfl

/-- C6 counterexample: a voice.transcript with no sessionKey from node
`node-1` resolves the session under the configured main key
(`agent:main:main` for the default config), not under the node fallback
`node-node-1`. -/
theorem voice_fallback_counterexample :
    (callsOf env0 [] "node-1"
      { event := "voice.transcript",
        payloadJSON := some (JsonValue.obj [("text", JsonValue.str "hi")]) }).map
      (fun c => c.sessionKey) = ["agent:main:main"]
    ∧ ¬ ("agent:main:main" = "node-node-1") := by
  exact ⟨rfl, by decide⟩

/-- C1 counterexample: the voice.transcript upsert does not preserve
directive fields outside the seven it copies.  With the entry under key
`k` holding `queueMode = interrupt` and `elevatedLevel = off`, handling a
voice transcript for key `k` rewrites the entry with both fields unset
(while the claim says every directive field untouched by the resolution is
preserved). -/
theorem upsert_drops_queue_fields_counterexample :
    (storeGet store0 "k").map SessionEntry.queueMode = some (some "interrupt")
    ∧ (storeGet (storeAfter env0 store0 "n" (msgEvent "voice.transcript" "hi" "k")) "k").map
        SessionEntry.queueMode = some none
    ∧ (storeGet (storeAfter env0 store0 "n" (msgEvent "voice.transcript" "hi" "k")) "k").map
        SessionEntry.elevatedLevel = some none
    ∧ (storeGet (storeAfter env0 store0 "n" (msgEvent "voice.transcript" "hi" "k")) "k").map
        SessionEntry.execHost = some none := by
  exact ⟨rfl, rfl, rfl, rfl⟩

theorem normalizeChannelId_empty : normalizeChannelId "" = none := rfl

/-- Reduction of the dispatcher on a valid voice.transcript message event:
the session is resolved under the trimmed explicit key, the entry is
upserted, a chat run is registered and the executor invoked. -/
theorem handle_msgEvent_voice (env : Env) (store : SessionStore) (n t k : String)
    (h1 : ¬ jsTrim t = "") (h2 : ¬ (jsTrim t).length > 20000)
    (hk : (jsTrim k).length > 0) :
    handleNodeEvent env store n (msgEvent "voice.transcript" t k) =
      Except.ok
        (storeSet store (jsTrim k)
          (sessionUpsertEntry (storeGet store (jsTrim k))
            (sessionIdFor (storeGet store (jsTrim k)) env.freshSessionId) env.now),
         { chatRuns := [⟨sessionIdFor (storeGet store (jsTrim k)) env.freshSessionId,
              jsTrim k, "voice-" ++ env.freshRunId⟩]
           executorCalls := [
             { message := jsTrim t
               sessionId := sessionIdFor (storeGet store (jsTrim k)) env.freshSessionId
               sessionKey := jsTrim k
               thinking := some (JsonValue.str "low")
               deliver := false
               toRecipient := none
               channel := none
               timeout := none
               messageChannel := "node" }] }) := by
  show Except.ok (handleVoiceTranscript env store n (msgEvent "voice.transcript" t k).payloadJSON) = _
  simp only [msgEvent, handleVoiceTranscript, toFields, jsStrField, getStr, getField,
    loadSessionEntry, String.reduceEq, reduceIte]
  rw [if_neg h1, if_neg h2, if_pos hk]

/-- Reduction of the dispatcher on a valid agent.request message event with
an explicit session key and no channel, recipient, thinking, deliver or
timeout fields. -/
theorem handle_msgEvent_agent (env : Env) (store : SessionStore) (n t k : String)
    (h1 : ¬ jsTrim t = "") (h2 : ¬ (jsTrim t).length > 20000)
    (hk : (jsTrim k).length > 0) :
    handleNodeEvent env store n (msgEvent "agent.request" t k) =
      Except.ok
        (storeSet store (jsTrim k)
          (sessionUpsertEntry (storeGet store (jsTrim k))
            (sessionIdFor (storeGet store (jsTrim k)) env.freshSessionId) env.now),
         { executorCalls := [
             { message := jsTrim t
               sessionId := sessionIdFor (storeGet store (jsTrim k)) env.freshSessionId
               sessionKey := jsTrim k
               thinking := none
               deliver := false
               toRecipient := none
               channel := none
               timeout := none
               messageChannel := "node" }] }) := by
  show handleAgentRequest env store n (msgEvent "agent.request" t k).payloadJSON = _
  simp only [msgEvent, handleAgentRequest, toFields, getField, getStr, getNum, jsStrField,
    coalesceTrim, loadSessionEntry, jsTruthy, jsCoalesceUndef, normalizeChannelId_empty,
    String.reduceEq, reduceIte]
  rw [if_neg h1, if_neg h2, if_pos hk]
  rfl

/-- Shared resolution shape of both message kinds: the store after the event
and the executor call's sessionId. -/
theorem msgEvent_resolution (env : Env) (store : SessionStore) (n kind t k : String)
    (hkind : kind = "voice.transcript" ∨ kind = "agent.request")
    (h1 : ¬ jsTrim t = "") (h2 : ¬ (jsTrim t).length > 20000)
    (hk : (jsTrim k).length > 0) :
    storeAfter env store n (msgEvent kind t k)
      = storeSet store (jsTrim k)
          (sessionUpsertEntry (storeGet store (jsTrim k))
            (sessionIdFor (storeGet store (jsTrim k)) env.freshSessionId) env.now)
    ∧ (callsOf env store n (msgEvent kind t k)).map (fun c => c.sessionId)
      = [sessionIdFor (storeGet store (jsTrim k)) env.freshSessionId] := by
  rcases hkind with rfl | rfl
  · unfold storeAfter callsOf effectsOf handleResult
    rw [handle_msgEvent_voice env store n t k h1 h2 hk]
    exact ⟨rfl, rfl⟩
  · unfold storeAfter callsOf effectsOf handleResult
    rw [handle_msgEvent_agent env store n t k h1 h2 hk]
    exact ⟨rfl, rfl⟩

/-- C2: sessionId stability.  For a valid voice.transcript or agent.request
event under an explicit session key: a second resolution of the same key
(by either message kind, under any environment, i.e. any later
`randomUUID`) yields the same sessionId as the first; the first resolution
returns a fresh random sessionId exactly when no entry exists, and reuses
the stored sessionId when one does. -/
theorem session_id_stable (env1 env2 : Env) (store : SessionStore)
    (n1 n2 k1 k2 t1 t2 k : String)
    (hkind1 : k1 = "voice.transcript" ∨ k1 = "agent.request")
    (hkind2 : k2 = "voice.transcript" ∨ k2 = "agent.request")
    (h1 : ¬ jsTrim t1 = "") (h1l : ¬ (jsTrim t1).length > 20000)
    (h2 : ¬ jsTrim t2 = "") (h2l : ¬ (jsTrim t2).length > 20000)
    (hk : (jsTrim k).length > 0) :
    ((callsOf env2 (storeAfter env1 store n1 (msgEvent k1 t1 k)) n2 (msgEvent k2 t2 k)).map
        (fun c => c.sessionId)
      = (callsOf env1 store n1 (msgEvent k1 t1 k)).map (fun c => c.sessionId))
    ∧ (storeGet store (jsTrim k) = none →
        (callsOf env1 store n1 (msgEvent k1 t1 k)).map (fun c => c.sessionId)
          = [env1.freshSessionId])
    ∧ (∀ e, storeGet store (jsTrim k) = some e →
        (callsOf env1 store n1 (msgEvent k1 t1 k)).map (fun c => c.sessionId)
          = [e.sessionId]) := by
  have r1 := msgEvent_resolution env1 store n1 k1 t1 k hkind1 h1 h1l hk
  have r2 := msgEvent_resolution env2 (storeAfter env1 store n1 (msgEvent k1 t1 k))
    n2 k2 t2 k hkind2 h2 h2l hk
  refine ⟨?_, ?_, ?_⟩
  · rw [r2.2, r1.2, r1.1, storeGet_storeSet_self]
    rfl
  · intro h
    rw [r1.2, h]
    rfl
  · intro e he
    rw [r1.2, he]
    rfl

/-- C2 witness: with an empty store, a voice transcript for key `k`
followed by an agent request for key `k` (different environment, different
fresh uuids) invoke the executor with the same sessionId. -/
theorem session_id_stable_witness :
    (callsOf env0b (storeAfter env0 [] "n1" (msgEvent "voice.transcript" "hi" "k"))
        "n2" (msgEvent "agent.request" "yo" "k")).map (fun c => c.sessionId)
      = (callsOf env0 [] "n1" (msgEvent "voice.transcript" "hi" "k")).map
          (fun c => c.sessionId) :=
  (session_id_stable env0 env0b [] "n1" "n2" "voice.transcript" "agent.request"
    "hi" "yo" "k" (Or.inl rfl) (Or.inr rfl) (by decide) (by decide) (by decide)
    (by decide) (by decide)).1

/-- C1 amended: when a voice.transcript or agent.request resolves a key
whose entry exists, the upsert keeps sessionId and copies exactly the seven
directive fields of the source's object literal — thinking/verbose/reasoning
levels, systemSent, sendPolicy, lastChannel, lastTo — sets updatedAt to the
current time, and clears every other directive field (elevated level, the
four queue fields, the exec defaults), which are not preserved. -/
theorem upsert_preserved_fields_amended (env : Env) (store : SessionStore)
    (n kind t k : String)
    (hkind : kind = "voice.transcript" ∨ kind = "agent.request")
    (h1 : ¬ jsTrim t = "") (h2 : ¬ (jsTrim t).length > 20000)
    (hk : (jsTrim k).length > 0)
    (e0 : SessionEntry) (he : storeGet store (jsTrim k) = some e0) :
    storeGet (storeAfter env store n (msgEvent kind t k)) (jsTrim k)
      = some
        { sessionId := e0.sessionId
          updatedAt := env.now
          thinkingLevel := e0.thinkingLevel
          verboseLevel := e0.verboseLevel
          reasoningLevel := e0.reasoningLevel
          elevatedLevel := none
          systemSent := e0.systemSent
          sendPolicy := e0.sendPolicy
          lastChannel := e0.lastChannel
          lastTo := e0.lastTo
          queueMode := none
          queueDebounceMs := none
          queueCap := none
          queueDrop := none
          execHost := none
          execSecurity := none
          execAsk := none
          execNode := none } := by
  have r := msgEvent_resolution env store n kind t k hkind h1 h2 hk
  rw [r.1, storeGet_storeSet_self, he]
  rfl

/-- C1 witness: the amended preservation at a concrete store and event. -/
theorem upsert_preserved_fields_amended_witness :
    storeGet (storeAfter env0 store0 "n" (msgEvent "voice.transcript" "hi" "k")) (jsTrim "k")
      = some
        { sessionId := "sid-0"
          updatedAt := 1000
          thinkingLevel := some "high"
          verboseLevel := some "on"
          reasoningLevel := some "stream"
          elevatedLevel := none
          systemSent := some true
          sendPolicy := some "allow"
          lastChannel := some "whatsapp"
          lastTo := some "+1222"
          queueMode := none
          queueDebounceMs := none
          queueCap := none
          queueDrop := none
          execHost := none
          execSecurity := none
          execAsk := none
          execNode := none } :=
  upsert_preserved_fields_amended env0 store0 "n" "voice.transcript" "hi" "k"
    (Or.inl rfl) (by decide) (by decide) (by decide) entry0 (by decide)

theorem coalesceTrim_str (s : String) :
    coalesceTrim (some (JsonValue.str s)) = Except.ok (jsTrim s) := rfl

theorem dropWhile_ws_replicate (n : Nat) :
    (List.replicate n 'a').dropWhile Char.isWhitespace = List.replicate n 'a' := by
  cases n with
  | zero => rfl
  | succ m =>
      simp [List.replicate_succ, List.dropWhile_cons,
        show Char.isWhitespace 'a' = false by decide]

theorem trimChars_replicate (n : Nat) :
    trimChars (List.replicate n 'a') = List.replicate n 'a' := by
  unfold trimChars
  rw [dropWhile_ws_replicate, List.reverse_replicate, dropWhile_ws_replicate,
    List.reverse_replicate]

theorem jsTrim_replicate (n : Nat) :
    jsTrim (String.mk (List.replicate n 'a')) = String.mk (List.replicate n 'a') :=
  congrArg String.mk (trimChars_replicate n)

theorem length_mk_replicate (n : Nat) :
    (String.mk (List.replicate n 'a')).length = n := by
  show (List.replicate n 'a').length = n
  exact List.length_replicate n 'a'

/-- A 20001-code-unit message. -/
def bigText : String := String.mk (List.replicate 20001 'a')

/-- A message of exactly 20000 code units. -/
def limitText : String := String.mk (List.replicate 20000 'a')

/-- C4: oversized rejection is atomic and exact.  A voice.transcript or
agent.request whose trimmed text/message exceeds 20000 units returns with
the store unchanged and no effect at all (no executor call, no store write,
no chat-run mapping); a trimmed text/message of exactly 20000 units is not
rejected — the executor receives it untruncated. -/
theorem oversized_message_rejected :
    (∀ (env : Env) (store : SessionStore) (n : String) (p : JsonValue),
      (jsStrField (toFields p) "text").length > 20000 →
      handleNodeEvent env store n { event := "voice.transcript", payloadJSON := some p }
        = Except.ok (store, noEffects))
    ∧ (∀ (env : Env) (store : SessionStore) (n : String) (p : JsonValue) (m : String),
      getField (toFields p) "message" = some (JsonValue.str m) →
      (jsTrim m).length > 20000 →
      handleNodeEvent env store n { event := "agent.request", payloadJSON := some p }
        = Except.ok (store, noEffects))
    ∧ (∀ (env : Env) (store : SessionStore) (n : String) (p : JsonValue),
      (jsStrField (toFields p) "text").length = 20000 →
      (callsOf env store n { event := "voice.transcript", payloadJSON := some p }).map
        (fun c => c.message) = [jsStrField (toFields p) "text"])
    ∧ (∀ (env : Env) (store : SessionStore) (n : String) (p : JsonValue) (m sk : String),
      getField (toFields p) "message" = some (JsonValue.str m) →
      (jsTrim m).length = 20000 →
      coalesceTrim (getField (toFields p) "sessionKey") = Except.ok sk →
      (callsOf env store n { event := "agent.request", payloadJSON := some p }).map
        (fun c => c.message) = [jsTrim m]) := by
  refine ⟨?_, ?_, ?_, ?_⟩
  · intro env store n p h
    have hne : ¬ jsStrField (toFields p) "text" = "" := by
      intro contra
      rw [contra] at h
      simp at h
    show Except.ok (handleVoiceTranscript env store n (some p)) = _
    simp only [handleVoiceTranscript]
    rw [if_neg hne, if_pos h]
  · intro env store n p m hm h
    have hne : ¬ jsTrim m = "" := by
      intro contra
      rw [contra] at h
      simp at h
    show handleAgentRequest env store n (some p) = _
    simp only [handleAgentRequest, hm, coalesceTrim]
    rw [if_neg hne, if_pos h]
  · intro env store n p h
    have hne : ¬ jsStrField (toFields p) "text" = "" := by
      intro contra
      rw [contra] at h
      simp at h
    have hgt : ¬ (jsStrField (toFields p) "text").length > 20000 := by
      rw [h]
      decide
    unfold callsOf effectsOf handleResult handleNodeEvent
    simp only [handleVoiceTranscript]
    rw [if_neg hne, if_neg hgt]
    rfl
  · intro env store n p m sk hm h hsk
    have hne : ¬ jsTrim m = "" := by
      intro contra
      rw [contra] at h
      simp at h
    have hgt : ¬ (jsTrim m).length > 20000 := by
      rw [h]
      decide
    unfold callsOf effectsOf handleResult handleNodeEvent
    simp only [handleAgentRequest, hm, coalesceTrim_str]
    rw [if_neg hne, if_neg hgt, hsk]
    rfl

/-- C4 witness: a 20001-character transcript is dropped with no effect. -/
theorem oversized_message_rejected_witness :
    handleNodeEvent env0 [] "n"
      { event := "voice.transcript",
        payloadJSON := some (JsonValue.obj [("text", JsonValue.str bigText)]) }
      = Except.ok ([], noEffects) :=
  oversized_message_rejected.1 env0 [] "n" (JsonValue.obj [("text", JsonValue.str bigText)])
    (by rw [show jsStrField (toFields (JsonValue.obj [("text", JsonValue.str bigText)])) "text"
            = bigText from jsTrim_replicate 20001]
        rw [show bigText.length = 20001 from length_mk_replicate 20001]
        decide)

theorem node_key_ne_empty (n : String) : ¬ ("node-" ++ n) = "" := by
  intro h
  have hlen := congrArg String.length h
  rw [String.length_append, show ("node-" : String).length = 5 from rfl,
    show ("" : String).length = 0 from rfl] at hlen
  omega

/-- C5 amended: an exec.started/finished/denied payload without a (string)
`runId` is NOT dropped: as long as the session key does not trim to empty,
the status note is still enqueued — tagged with the plain context key
`exec` instead of `exec:<runId>` — and a liveness refresh is still
requested. -/
theorem exec_missing_run_id_amended (env : Env) (store : SessionStore)
    (n k : String) (p : JsonValue)
    (hkind : k = "exec.started" ∨ k = "exec.finished" ∨ k = "exec.denied")
    (hrun : getStr (toFields p) "runId" = none)
    (hsk : ¬ (match getStr (toFields p) "sessionKey" with
              | some s => jsTrim s
              | none => "node-" ++ n) = "") :
    (sysEventsOf env store n { event := k, payloadJSON := some p }).map
      (fun ev => ev.contextKey) = ["exec"]
    ∧ heartbeatsOf env store n { event := k, payloadJSON := some p } = ["exec-event"] := by
  rcases hkind with rfl | rfl | rfl <;>
  · unfold sysEventsOf heartbeatsOf effectsOf handleResult handleNodeEvent
    simp only [handleExecEvent, jsStrField, hrun]
    rw [if_neg hsk]
    exact ⟨rfl, rfl⟩

/-- C5 witness: the amended behaviour at the concrete runId-less payload. -/
theorem exec_missing_run_id_amended_witness :
    (sysEventsOf env0 [] "n"
      { event := "exec.finished",
        payloadJSON := some (JsonValue.obj [("exitCode", JsonValue.num 0)]) }).map
      (fun ev => ev.contextKey) = ["exec"]
    ∧ heartbeatsOf env0 [] "n"
      { event := "exec.finished",
        payloadJSON := some (JsonValue.obj [("exitCode", JsonValue.num 0)]) }
      = ["exec-event"] :=
  exec_missing_run_id_amended env0 [] "n" "exec.finished"
    (JsonValue.obj [("exitCode", JsonValue.num 0)])
    (Or.inr (Or.inl rfl)) rfl (by decide)

/-- C6 amended: only agent.request falls back to `node-<nodeId>` for an
empty or missing session key; voice.transcript falls back to the
configured main session key instead. -/
theorem session_fallback_keys_amended :
    (∀ (env : Env) (store : SessionStore) (n : String) (p : JsonValue),
      ¬ jsStrField (toFields p) "text" = "" →
      ¬ (jsStrField (toFields p) "text").length > 20000 →
      jsStrField (toFields p) "sessionKey" = "" →
      (callsOf env store n { event := "voice.transcript", payloadJSON := some p }).map
        (fun c => c.sessionKey) = [normalizeMainKey env.cfgMainKey])
    ∧ (∀ (env : Env) (store : SessionStore) (n : String) (p : JsonValue) (m : String),
      getField (toFields p) "message" = some (JsonValue.str m) →
      ¬ jsTrim m = "" →
      ¬ (jsTrim m).length > 20000 →
      coalesceTrim (getField (toFields p) "sessionKey") = Except.ok "" →
      (callsOf env store n { event := "agent.request", payloadJSON := some p }).map
        (fun c => c.sessionKey) = ["node-" ++ n]) := by
  constructor
  · intro env store n p h1 h2 hsk
    unfold callsOf effectsOf handleResult handleNodeEvent
    simp only [handleVoiceTranscript, hsk]
    rw [if_neg h1, if_neg h2]
    rfl
  · intro env store n p m hm h1 h2 hsk
    unfold callsOf effectsOf handleResult handleNodeEvent
    simp only [handleAgentRequest, hm, coalesceTrim_str]
    rw [if_neg h1, if_neg h2, hsk]
    rfl

/-- C6 witness: the two fallbacks at a concrete key-less text/message. -/
theorem session_fallback_keys_amended_witness :
    (callsOf env0 [] "node-1"
      { event := "agent.request",
        payloadJSON := some (JsonValue.obj [("message", JsonValue.str "hi")]) }).map
      (fun c => c.sessionKey) = ["node-" ++ "node-1"] :=
  session_fallback_keys_amended.2 env0 [] "node-1"
    (JsonValue.obj [("message", JsonValue.str "hi")]) "hi" rfl (by decide) (by decide) rfl

/-- Every executor call an agent.request issues carries
`deliver = Boolean(link.deliver) && Boolean(normalizeChannelId(channel))`. -/
theorem agent_deliver_all (env : Env) (store : SessionStore) (n : String) (p : JsonValue) :
    ((callsOf env store n { event := "agent.request", payloadJSON := some p }).all
      (fun c => c.deliver
        == (jsTruthy (getField (toFields p) "deliver")
            && (normalizeChannelId (jsStrField (toFields p) "channel")).isSome))) = true := by
  unfold callsOf effectsOf handleResult handleNodeEvent
  cases hm : coalesceTrim (getField (toFields p) "message") with
  | error e =>
    simp only [handleAgentRequest, hm]
    rfl
  | ok m =>
    simp only [handleAgentRequest, hm]
    by_cases hme : m = ""
    · rw [if_pos hme]
      rfl
    · rw [if_neg hme]
      by_cases hml : m.length > 20000
      · rw [if_pos hml]
        rfl
      · rw [if_neg hml]
        cases hs : coalesceTrim (getField (toFields p) "sessionKey") with
        | error e => rfl
        | ok sk => simp

/-- C7: for every agent.request, the executor's deliver flag is the
requested deliver AND a resolved channel; in particular it is false
whenever the channel is absent or unrecognized, whatever was requested. -/
theorem agent_deliver_gate :
    (∀ (env : Env) (store : SessionStore) (n : String) (p : JsonValue),
      ((callsOf env store n { event := "agent.request", payloadJSON := some p }).all
        (fun c => c.deliver
          == (jsTruthy (getField (toFields p) "deliver")
              && (normalizeChannelId (jsStrField (toFields p) "channel")).isSome))) = true)
    ∧ (∀ (env : Env) (store : SessionStore) (n : String) (p : JsonValue),
      getStr (toFields p) "channel" = none →
      ((callsOf env store n { event := "agent.request", payloadJSON := some p }).all
        (fun c => c.deliver == false)) = true) := by
  refine ⟨agent_deliver_all, ?_⟩
  intro env store n p hchan
  have h := agent_deliver_all env store n p
  simpa [jsStrField, hchan, normalizeChannelId_empty] using h

/-- C7 witness: a request that asks for delivery but names no channel is
dispatched with deliver = false. -/
theorem agent_deliver_gate_witness :
    ((callsOf env0 [] "n"
      { event := "agent.request",
        payloadJSON := some (JsonValue.obj
          [("message", JsonValue.str "hi"), ("deliver", JsonValue.bool true)]) }).all
      (fun c => c.deliver == false)) = true :=
  agent_deliver_gate.2 env0 [] "n"
    (JsonValue.obj [("message", JsonValue.str "hi"), ("deliver", JsonValue.bool true)]) rfl

/-- C10: exec events distinguish an explicitly empty session key from a
missing one.  A payload whose `sessionKey` is a string trimming to empty is
dropped entirely (no note, no refresh); a payload whose `sessionKey` is
absent (or not a string) defaults to `node-<nodeId>` and is processed
normally — the note is tagged with that fallback key and a liveness refresh
is requested. -/
theorem exec_empty_session_key_drops :
    (∀ (env : Env) (store : SessionStore) (n k : String) (p : JsonValue) (s : String),
      (k = "exec.started" ∨ k = "exec.finished" ∨ k = "exec.denied") →
      getStr (toFields p) "sessionKey" = some s →
      jsTrim s = "" →
      handleNodeEvent env store n { event := k, payloadJSON := some p }
        = Except.ok (store, noEffects))
    ∧ (∀ (env : Env) (store : SessionStore) (n k : String) (p : JsonValue),
      (k = "exec.started" ∨ k = "exec.finished" ∨ k = "exec.denied") →
      getStr (toFields p) "sessionKey" = none →
      (sysEventsOf env store n { event := k, payloadJSON := some p }).map
        (fun ev => ev.sessionKey) = ["node-" ++ n]
      ∧ heartbeatsOf env store n { event := k, payloadJSON := some p } = ["exec-event"]) := by
  constructor
  · intro env store n k p s hkind hs hempty
    rcases hkind with rfl | rfl | rfl <;>
    · show Except.ok (handleExecEvent store n _ (some p)) = _
      simp only [handleExecEvent, hs, hempty]
      simp
  · intro env store n k p hkind hs
    rcases hkind with rfl | rfl | rfl <;>
    · unfold sysEventsOf heartbeatsOf effectsOf handleResult handleNodeEvent
      simp only [handleExecEvent, hs]
      rw [if_neg (node_key_ne_empty n)]
      exact ⟨rfl, rfl⟩

/-- C10 witness: a whitespace-only sessionKey drops the exec event. -/
theorem exec_empty_session_key_drops_witness :
    handleNodeEvent env0 [] "n"
      { event := "exec.finished",
        payloadJSON := some (JsonValue.obj
          [("sessionKey", JsonValue.str "   "), ("runId", JsonValue.str "r1")]) }
      = Except.ok ([], noEffects) :=
  exec_empty_session_key_drops.1 env0 [] "n" "exec.finished"
    (JsonValue.obj [("sessionKey", JsonValue.str "   "), ("runId", JsonValue.str "r1")])
    "   " (Or.inr (Or.inl rfl)) rfl (by decide)

/-- Whitespace tokenizer for directives, written structurally over the
character list so that it evaluates. -/
def wordsAux : List Char → List Char → List String
  | [], acc => if acc.isEmpty then [] else [String.mk acc.reverse]
  | c :: rest, acc =>
    if c = ' ' then
      if acc.isEmpty then wordsAux rest []
      else String.mk acc.reverse :: wordsAux rest []
    else wordsAux rest (c :: acc)

def jsWords (s : String) : List String :=
  wordsAux s.data []

/-- Decimal parse of a non-empty digit string. -/
def parseNatAux : List Char → Nat → Option Nat
  | [], acc => some acc
  | c :: rest, acc =>
    if c.isDigit then parseNatAux rest (acc * 10 + (c.toNat - 48)) else none

def parseNatChars (cs : List Char) : Option Nat :=
  if cs.isEmpty then none else parseNatAux cs 0

/-- Split a `key:value` token at its first colon. -/
def splitColonAux : List Char → List Char → Option (String × String)
  | [], _ => none
  | c :: rest, acc =>
    if c = ':' then some (String.mk acc.reverse, String.mk rest)
    else splitColonAux rest (c :: acc)

def splitColon (s : String) : Option (String × String) :=
  splitColonAux s.data []

/-- Modelled from the spec: the queue-directive duration shorthand of the
auto-reply directive engine (its module is not among the staged sources;
only its test is).  Spec 4.4: "Duration shorthand converts exactly: `s` ⇒
×1000 ms"; a bare number or an `ms` suffix is taken as milliseconds. -/
def parseQueueDurationMs (tok : String) : Option Int :=
  match tok.data.reverse with
  | 's' :: 'm' :: rest => (parseNatChars rest.reverse).map Int.ofNat
  | 's' :: rest => (parseNatChars rest.reverse).map (fun x => Int.ofNat x * 1000)
  | _ => (parseNatChars tok.data).map Int.ofNat

/-- Modelled from the spec: one `debounce:`/`cap:`/`drop:` option of a
`/queue` directive applied to a session entry (spec 4.4); an unknown or
malformed option leaves the entry unchanged. -/
def applyQueueOption (e : SessionEntry) (tok : String) : SessionEntry :=
  match splitColon tok with
  | some ("debounce", v) =>
    match parseQueueDurationMs v with
    | some ms => { e with queueDebounceMs := some ms }
    | none => e
  | some ("cap", v) =>
    match parseNatChars v.data with
    | some c => { e with queueCap := some (Int.ofNat c) }
    | none => e
  | some ("drop", v) =>
    if v = "old" ∨ v = "new" then { e with queueDrop := some v } else e
  | _ => e

/-- Modelled from the spec: applying an inline `/queue` directive to a
session entry (spec 4.4 and the repository's directive tests).
`/queue interrupt` and `/queue collect ...` set the mode and fold the
options; `/queue reset` clears mode, debounceMs, cap and drop atomically;
anything else is rejected and changes nothing. -/
def applyQueueDirective (e : SessionEntry) (directive : String) : SessionEntry :=
  match jsWords directive with
  | "/queue" :: "reset" :: _ =>
    { e with queueMode := none, queueDebounceMs := none, queueCap := none, queueDrop := none }
  | "/queue" :: mode :: opts =>
    if mode = "interrupt" ∨ mode = "collect" then
      opts.foldl applyQueueOption { e with queueMode := some mode }
    else e
  | _ => e

/-- C9: `/queue interrupt` then `/queue reset` leaves all four queue fields
unset, whatever the session entry held before; the interrupt directive
really had set the mode first, and a full `/queue collect debounce:2s
cap:5 drop:old` is also wiped by the reset. -/
theorem queue_reset_clears_all_fields (e : SessionEntry) :
    ((applyQueueDirective (applyQueueDirective e "/queue interrupt") "/queue reset").queueMode
        = none
      ∧ (applyQueueDirective (applyQueueDirective e "/queue interrupt")
          "/queue reset").queueDebounceMs = none
      ∧ (applyQueueDirective (applyQueueDirective e "/queue interrupt") "/queue reset").queueCap
        = none
      ∧ (applyQueueDirective (applyQueueDirective e "/queue interrupt") "/queue reset").queueDrop
        = none)
    ∧ (applyQueueDirective e "/queue interrupt").queueMode = some "interrupt"
    ∧ (applyQueueDirective
        (applyQueueDirective e "/queue collect debounce:2s cap:5 drop:old")
        "/queue reset").queueMode = none
    ∧ (applyQueueDirective
        (applyQueueDirective e "/queue collect debounce:2s cap:5 drop:old")
        "/queue reset").queueDebounceMs = none := by
  exact ⟨⟨rfl, rfl, rfl, rfl⟩, rfl, rfl, rfl⟩
